import Mathlib

set_option maxRecDepth 8192

/-!
Shallow embedding of `src/main.py`: a FastAPI service exposing `POST /ocr`.
The handler `ocr_endpoint` validates the declared content type, streams the
upload into a `NamedTemporaryFile(delete=False)`, flushes it, binds
`filepath = tmp.name`, runs `perform_ocr_sync` on a worker thread, maps
exceptions through an except chain, and in a `finally` block removes the file
when `filepath` is bound and the path exists.  We embed the handler as a pure
function from an environment (the upload, the temp path produced by the file
store, the outcome of the external OCR engine, and whether `os.remove` raises)
to a response, the final on-disk state of the transient artifact, and an event
trace recording the order of the steps.
-/

/-- Python `str.startswith`, modelled on the underlying character lists.
Mirrors line 44: `image.content_type.startswith("image/")`. -/
def pyStartsWith (s p : String) : Bool := p.data.isPrefixOf s.data

/-- The uploaded file as the handler observes it: the declared media type
(`none` when absent), the byte chunks the 1 MiB read loop successfully reads
and writes (lines 53-54), and a flag recording that the next read or write in
the loop raises an I/O exception.  When `readError` is true the exception
occurs after the listed chunks were written, before `filepath = tmp.name`
(line 60) executes. -/
structure UploadFile where
  content_type : Option String
  chunks : List (List Nat)
  readError : Bool
  deriving DecidableEq

/-- Outcome of the external engine call `pytesseract.image_to_string(path, lang="eng")`:
extracted text, `TesseractNotFoundError`, or any other engine exception
carrying message `msg` (line 33 binds it as `e`). -/
inductive OcrOutcome where
  | ok (text : String)
  | tesseractNotFound
  | err (msg : String)
  deriving DecidableEq

/-- The Python exception kinds the handler distinguishes: `HTTPException`,
`RuntimeError` (raised by `perform_ocr_sync`), `OSError` (from `os.remove`),
and any other exception (e.g. an I/O error while streaming). -/
inductive PyError where
  | httpException (status : Nat) (detail : String)
  | runtimeError (msg : String)
  | osError (msg : String)
  | otherError (msg : String)
  deriving DecidableEq

/-- The transport response.  `json200 t` is `200 OK` with JSON body having the
single field `raw_text_from_img` bound to `t` (line 81).  `httpError s d` is an
`HTTPException(status_code=s, detail=d)` rendered by FastAPI.  `serverFault`
is the generic 500 FastAPI produces when a non-HTTPException escapes the
handler (e.g. an `OSError` raised inside the `finally` block). -/
inductive Response where
  | json200 (raw_text_from_img : String)
  | httpError (status : Nat) (detail : String)
  | serverFault (msg : String)
  deriving DecidableEq

/-- Observable steps of one request, in execution order: the content-type
check, `NamedTemporaryFile` creation, one `write` per chunk, `tmp.flush()`,
the OCR engine call, the `os.remove` call, and producing the response. -/
inductive Event where
  | validate
  | createTemp
  | write
  | flush
  | ocrCall
  | removeFile
  | respond
  deriving DecidableEq

/-- One request environment: the upload, the unique path the temp-file
facility generates (`tmp.name`), the engine outcome for that path, and whether
`os.remove` raises at cleanup time (e.g. a permission error). -/
structure Env where
  image : UploadFile
  tmpName : String
  ocr : OcrOutcome
  removeRaises : Bool
  deriving DecidableEq

/-- Lines 23-35.  Returns the extracted text; `TesseractNotFoundError` is
re-raised as `RuntimeError("Tesseract OCR engine is not configured correctly.")`
and any other engine exception `e` as `RuntimeError(f"OCR processing failed: {e}")`
whose text embeds the engine message verbatim. -/
def perform_ocr_sync (o : OcrOutcome) : Except PyError String :=
  match o with
  | .ok t => .ok t
  | .tesseractNotFound =>
      .error (.runtimeError "Tesseract OCR engine is not configured correctly.")
  | .err m => .error (.runtimeError ("OCR processing failed: " ++ m))

/-- The bytes the write loop has put into the temp file: the concatenation of
the chunks read so far (all of them when no read error interrupts the loop). -/
def writtenBytes (env : Env) : List Nat := env.image.chunks.flatten

/-- One `write` event per chunk, mirroring the loop at lines 53-54. -/
def writeEvents (env : Env) : List Event := env.image.chunks.map (fun _ => Event.write)

/-- Result of the `try` block body (lines 49-61): the value or the in-flight
exception, whether the name `filepath` got bound (line 60 executes only after
the whole write loop and the flush succeeded), and the events the body emitted. -/
structure BodyResult where
  result : Except PyError String
  filepathBound : Bool
  events : List Event

/-- Lines 49-61.  On a streaming I/O failure the exception fires inside the
loop, so neither `tmp.flush()` nor `filepath = tmp.name` runs; otherwise the
flush happens, `filepath` is bound, and the engine is invoked on the path. -/
def tryBody (env : Env) : BodyResult :=
  if env.image.readError then
    { result := .error (.otherError "I/O error while streaming the upload"),
      filepathBound := false,
      events := [Event.createTemp] ++ writeEvents env }
  else
    match perform_ocr_sync env.ocr with
    | .ok t =>
        { result := .ok t,
          filepathBound := true,
          events := [Event.createTemp] ++ writeEvents env ++ [Event.flush, Event.ocrCall] }
    | .error e =>
        { result := .error e,
          filepathBound := true,
          events := [Event.createTemp] ++ writeEvents env ++ [Event.flush, Event.ocrCall] }

/-- The except chain at lines 63-72: an `HTTPException` is re-raised as is, a
`RuntimeError` becomes `HTTPException(500, str(e))`, and anything else becomes
`HTTPException(500, "An unexpected error occurred during file processing.")`. -/
def handleExcept : PyError → PyError
  | .httpException s d => .httpException s d
  | .runtimeError m => .httpException 500 m
  | _ => .httpException 500 "An unexpected error occurred during file processing."

/-- Result of the `finally` block: the artifact state on disk afterwards, the
exception escaping the block if any, and the events it emitted. -/
structure CleanupResult where
  file : Option (List Nat)
  pendingExn : Option PyError
  events : List Event

/-- Lines 73-79: `if "filepath" in locals() and os.path.exists(filepath):
os.remove(filepath)`.  `bound` models the `locals()` test and `file` the disk
state (`none` when the path does not exist).  When the guard passes,
`os.remove` either deletes the file or raises; when it fails, nothing runs. -/
def finallyCleanup (removeRaises bound : Bool) (file : Option (List Nat)) :
    CleanupResult :=
  if bound && file.isSome then
    if removeRaises then
      { file := file, pendingExn := some (.osError "os.remove raised"),
        events := [Event.removeFile] }
    else
      { file := none, pendingExn := none, events := [Event.removeFile] }
  else
    { file := file, pendingExn := none, events := [] }

/-- Assembling the transport response.  Python runs the except clauses before
the `finally` block, and an exception raised inside `finally` replaces the one
in flight; FastAPI renders an escaped `HTTPException` with its status and
detail, and any other escaped exception as a generic 500 server fault. -/
def respondWith (bodyRes : Except PyError String) (cleanupExn : Option PyError) :
    Response :=
  match cleanupExn with
  | some (.httpException s d) => .httpError s d
  | some _ => .serverFault "Internal Server Error"
  | none =>
      match bodyRes with
      | .ok t => .json200 t
      | .error e =>
          match handleExcept e with
          | .httpException s d => .httpError s d
          | _ => .serverFault "Internal Server Error"

/-- What one request leaves behind: the response sent to the client, the
transient artifact state on disk after the request completes (`none` when no
file exists), and the event trace. -/
structure Outcome where
  resp : Response
  file : Option (List Nat)
  trace : List Event

/-- The 400 rejection at lines 44-45, raised before the `try` block, so no
file operation has happened. -/
def rejectOutcome : Outcome :=
  { resp := .httpError 400 "Invalid file type. Please upload an image.",
    file := none,
    trace := [Event.validate, Event.respond] }

/-- Lines 38-81, the whole handler.  Validation precedes the `try` block;
once the body has run, the temp file holds the written bytes (the temp-file
facility created it with `delete=False`, so only the `finally` block can
remove it), and the response is assembled from the body result and any
exception escaping the cleanup. -/
def ocr_endpoint (env : Env) : Outcome :=
  match env.image.content_type with
  | none => rejectOutcome
  | some ct =>
      if pyStartsWith ct "image/" then
        let b := tryBody env
        let c := finallyCleanup env.removeRaises b.filepathBound
                   (some (writtenBytes env))
        { resp := respondWith b.result c.pendingExn,
          file := c.file,
          trace := [Event.validate] ++ b.events ++ c.events ++ [Event.respond] }
      else rejectOutcome

/-- `sub` occurs contiguously inside `s` (string containment, as Python
`sub in s`). -/
def containsStr (s sub : String) : Prop := ∃ pre post, s = pre ++ sub ++ post

theorem mem_of_containsStr {s sub : String} {c : Char}
    (h : containsStr s sub) (hc : c ∈ sub.data) : c ∈ s.data := by
  obtain ⟨pre, post, hs⟩ := h
  subst hs
  simp only [String.data_append, List.mem_append]
  exact Or.inl (Or.inr hc)

def envC1 : Env :=
  { image := { content_type := some "image/png", chunks := [[1, 2, 3]], readError := true },
    tmpName := "/tmp/tmpc1", ocr := .ok "", removeRaises := false }

/-- C1: evaluation at the failing input.  A request with a valid image content
type whose upload stream raises an I/O error after one chunk gets the generic
500 response, yet the transient file (holding the partially written bytes) is
STILL ON DISK after the request completes: `filepath = tmp.name` runs only
after the write loop, so the finally guard `"filepath" in locals()` is false
and `os.remove` is skipped, while `NamedTemporaryFile(delete=False)` keeps the
file.  This contradicts the claim (and the code comments at lines 47-48 and
74-77, which promise deletion on every exit path), so the claim is a code bug,
not a spec error. -/
theorem C1_streaming_failure_leaves_file :
    (ocr_endpoint envC1).resp =
      Response.httpError 500 "An unexpected error occurred during file processing." ∧
    (ocr_endpoint envC1).file = some [1, 2, 3] :=
  ⟨rfl, rfl⟩

/-- C2: for an upload whose declared content type starts with `image/`, when
streaming and flushing succeed and the engine returns text `t` (for the
artifact path, language `eng`), and cleanup does not itself fault, the handler
returns 200 with JSON body binding `raw_text_from_img` to exactly `t`, and the
transient file is gone.  The statement quantifies over every text `t`,
including the empty string, so an empty OCR result is still a success. -/
theorem C2_success_returns_text (env : Env) (ct t : String)
    (hct : env.image.content_type = some ct)
    (himg : pyStartsWith ct "image/" = true)
    (hre : env.image.readError = false)
    (hocr : env.ocr = OcrOutcome.ok t)
    (hrm : env.removeRaises = false) :
    (ocr_endpoint env).resp = Response.json200 t ∧
    (ocr_endpoint env).file = none := by
  constructor <;>
    simp [ocr_endpoint, hct, himg, tryBody, hre, hocr, perform_ocr_sync,
      finallyCleanup, hrm, respondWith]

def envW2 : Env :=
  { image := { content_type := some "image/png", chunks := [], readError := false },
    tmpName := "/tmp/tmpw2", ocr := .ok "", removeRaises := false }

/-- C2 witness: a concrete valid upload whose engine result is the empty
string still yields a 200 success. -/
theorem C2_witness :
    (ocr_endpoint envW2).resp = Response.json200 "" ∧
    (ocr_endpoint envW2).file = none :=
  C2_success_returns_text envW2 "image/png" "" rfl (by decide) rfl rfl rfl

/-- C3: when the declared content type is absent or does not start with
`image/`, the handler responds 400 with the detail "Invalid file type. Please
upload an image." (which names the invalid file type), no file exists on disk
afterwards, and the trace contains neither a temp-file creation nor any write:
the rejection at lines 44-45 precedes the `try` block, so no file operation
ever happens. -/
theorem C3_invalid_type_rejected (env : Env)
    (h : env.image.content_type = none ∨
         ∃ ct, env.image.content_type = some ct ∧ pyStartsWith ct "image/" = false) :
    (ocr_endpoint env).resp =
      Response.httpError 400 "Invalid file type. Please upload an image." ∧
    (ocr_endpoint env).file = none ∧
    Event.createTemp ∉ (ocr_endpoint env).trace ∧
    Event.write ∉ (ocr_endpoint env).trace := by
  have hout : ocr_endpoint env = rejectOutcome := by
    obtain h | ⟨ct, hct, himg⟩ := h
    · simp [ocr_endpoint, h]
    · simp [ocr_endpoint, hct, himg]
  rw [hout]
  exact ⟨rfl, rfl, by decide, by decide⟩

def envW3 : Env :=
  { image := { content_type := some "text/plain", chunks := [[9]], readError := false },
    tmpName := "/tmp/tmpw3", ocr := .ok "hi", removeRaises := false }

/-- C3 witness: a concrete `text/plain` upload is rejected with the 400 detail
and no file activity. -/
theorem C3_witness :
    (ocr_endpoint envW3).resp =
      Response.httpError 400 "Invalid file type. Please upload an image." ∧
    (ocr_endpoint envW3).file = none ∧
    Event.createTemp ∉ (ocr_endpoint envW3).trace ∧
    Event.write ∉ (ocr_endpoint envW3).trace :=
  C3_invalid_type_rejected envW3 (Or.inr ⟨"text/plain", rfl, by decide⟩)

def envC4 : Env :=
  { image := { content_type := some "image/png", chunks := [], readError := false },
    tmpName := "/tmp/tmpocr1",
    ocr := .err "cannot identify image file /tmp/tmpocr1", removeRaises := false }

/-- C4 counterexample: a request failing after validation whose 500 detail
DOES contain the transient artifact path.  When the engine raises a generic
exception, line 35 wraps its message verbatim
(`RuntimeError(f"OCR processing failed: {e}")`) and line 68 sends that text as
the detail.  Engine exceptions routinely embed the file path (for instance the
imaging library reports "cannot identify image file <path>" for a corrupt
image), so the detail leaks the path, refuting the claim as stated. -/
theorem C4_counterexample :
    (ocr_endpoint envC4).resp =
      Response.httpError 500
        "OCR processing failed: cannot identify image file /tmp/tmpocr1" ∧
    containsStr "OCR processing failed: cannot identify image file /tmp/tmpocr1"
      envC4.tmpName :=
  ⟨rfl, "OCR processing failed: cannot identify image file ", "", rfl⟩

/-- C4 (amended): for streaming failures and for the engine-not-found failure
the 500 detail is a fixed message that cannot contain the artifact path (the
fixed texts contain no slash, while any temp path does); but for any other
engine failure the detail is "OCR processing failed: " followed by the engine
message verbatim, so it contains the path exactly when the engine message
does. -/
theorem C4_amended (env : Env) (ct : String)
    (hct : env.image.content_type = some ct)
    (himg : pyStartsWith ct "image/" = true)
    (hslash : '/' ∈ env.tmpName.data)
    (hrm : env.removeRaises = false) :
    (env.image.readError = true →
      (ocr_endpoint env).resp =
        Response.httpError 500 "An unexpected error occurred during file processing." ∧
      ¬ containsStr "An unexpected error occurred during file processing." env.tmpName) ∧
    (env.image.readError = false → env.ocr = OcrOutcome.tesseractNotFound →
      (ocr_endpoint env).resp =
        Response.httpError 500 "Tesseract OCR engine is not configured correctly." ∧
      ¬ containsStr "Tesseract OCR engine is not configured correctly." env.tmpName) ∧
    (∀ m, env.image.readError = false → env.ocr = OcrOutcome.err m →
      (ocr_endpoint env).resp =
        Response.httpError 500 ("OCR processing failed: " ++ m)) := by
  refine ⟨fun hre => ⟨?_, ?_⟩, fun hre hocr => ⟨?_, ?_⟩, fun m hre hocr => ?_⟩
  · simp [ocr_endpoint, hct, himg, tryBody, hre, finallyCleanup, respondWith, handleExcept]
  · exact fun hcon => absurd (mem_of_containsStr hcon hslash) (by decide)
  · simp [ocr_endpoint, hct, himg, tryBody, hre, hocr, perform_ocr_sync,
      finallyCleanup, hrm, respondWith, handleExcept]
  · exact fun hcon => absurd (mem_of_containsStr hcon hslash) (by decide)
  · simp [ocr_endpoint, hct, himg, tryBody, hre, hocr, perform_ocr_sync,
      finallyCleanup, hrm, respondWith, handleExcept]

def envW4 : Env :=
  { image := { content_type := some "image/png", chunks := [[4]], readError := false },
    tmpName := "/tmp/tmpw4", ocr := .tesseractNotFound, removeRaises := false }

/-- C4 witness: a concrete engine-not-found failure gets the fixed detail,
which does not contain the artifact path. -/
theorem C4_amended_witness :
    (ocr_endpoint envW4).resp =
      Response.httpError 500 "Tesseract OCR engine is not configured correctly." ∧
    ¬ containsStr "Tesseract OCR engine is not configured correctly." envW4.tmpName :=
  (C4_amended envW4 "image/png" rfl (by decide) (by decide) rfl).2.1 rfl rfl

def envC5 : Env :=
  { image := { content_type := some "image/png", chunks := [[7]], readError := false },
    tmpName := "/tmp/tmpc5", ocr := .err "boom", removeRaises := true }

/-- C5 counterexample: when an OCR error is in flight and `os.remove` in the
`finally` block itself raises, the cleanup failure replaces the original
error (Python semantics for exceptions raised in a `finally` block), so the
client receives the generic server fault for the escaped `OSError`, not the
500 response classifying the OCR failure.  Nothing in the code catches or
logs `os.remove` failures. -/
theorem C5_counterexample :
    (ocr_endpoint envC5).resp = Response.serverFault "Internal Server Error" ∧
    (ocr_endpoint envC5).resp ≠
      Response.httpError 500 "OCR processing failed: boom" := by
  refine ⟨rfl, ?_⟩
  rw [show (ocr_endpoint envC5).resp = Response.serverFault "Internal Server Error" from rfl]
  simp

/-- C5 (amended): when the cleanup step does not itself fail, the response is
the one classifying the original OCR-engine error (engine failure message or
the fixed engine-not-found text); when `os.remove` raises, that exception
replaces the original error and the client sees a generic server fault
instead. -/
theorem C5_amended (env : Env) (ct : String)
    (hct : env.image.content_type = some ct)
    (himg : pyStartsWith ct "image/" = true)
    (hre : env.image.readError = false)
    (hrm : env.removeRaises = false) :
    (∀ m, env.ocr = OcrOutcome.err m →
      (ocr_endpoint env).resp =
        Response.httpError 500 ("OCR processing failed: " ++ m)) ∧
    (env.ocr = OcrOutcome.tesseractNotFound →
      (ocr_endpoint env).resp =
        Response.httpError 500 "Tesseract OCR engine is not configured correctly.") := by
  constructor
  · intro m hocr
    simp [ocr_endpoint, hct, himg, tryBody, hre, hocr, perform_ocr_sync,
      finallyCleanup, hrm, respondWith, handleExcept]
  · intro hocr
    simp [ocr_endpoint, hct, himg, tryBody, hre, hocr, perform_ocr_sync,
      finallyCleanup, hrm, respondWith, handleExcept]

def envW5 : Env :=
  { image := { content_type := some "image/png", chunks := [[7]], readError := false },
    tmpName := "/tmp/tmpw5", ocr := .err "boom", removeRaises := false }

/-- C5 witness: with a concrete engine failure and a cleanup that succeeds,
the original error classification reaches the client. -/
theorem C5_amended_witness :
    (ocr_endpoint envW5).resp =
      Response.httpError 500 ("OCR processing failed: " ++ "boom") :=
  (C5_amended envW5 "image/png" rfl (by decide) rfl rfl).1 "boom" rfl

/-- C6: when the OCR engine binary cannot be located or executed
(`TesseractNotFoundError`), the response is a 500 whose detail is the fixed
configuration-error text produced at line 32, independent of whatever message
the engine library raised; the raw engine exception text never reaches the
response. -/
theorem C6_engine_missing_generic_detail (env : Env) (ct : String)
    (hct : env.image.content_type = some ct)
    (himg : pyStartsWith ct "image/" = true)
    (hre : env.image.readError = false)
    (hocr : env.ocr = OcrOutcome.tesseractNotFound)
    (hrm : env.removeRaises = false) :
    (ocr_endpoint env).resp =
      Response.httpError 500 "Tesseract OCR engine is not configured correctly." := by
  simp [ocr_endpoint, hct, himg, tryBody, hre, hocr, perform_ocr_sync,
    finallyCleanup, hrm, respondWith, handleExcept]

def envW6 : Env :=
  { image := { content_type := some "image/bmp", chunks := [[1]], readError := false },
    tmpName := "/tmp/tmpw6", ocr := .tesseractNotFound, removeRaises := false }

/-- C6 witness: a concrete engine-not-found request gets the fixed 500
configuration-error detail. -/
theorem C6_witness :
    (ocr_endpoint envW6).resp =
      Response.httpError 500 "Tesseract OCR engine is not configured correctly." :=
  C6_engine_missing_generic_detail envW6 "image/bmp" rfl (by decide) rfl rfl rfl

/-- C7: the delete step of lines 78-79 invoked when the artifact path does not
exist (`none`) raises nothing, changes nothing on disk, emits no event, and
the response assembled afterwards is the same as if cleanup had not run at
all, whatever result was in flight and whether or not `os.remove` would have
failed: the `os.path.exists` guard makes the step a no-op on an absent path. -/
theorem C7_cleanup_idempotent (rr bound : Bool) (r : Except PyError String) :
    finallyCleanup rr bound none =
      { file := none, pendingExn := none, events := [] } ∧
    respondWith r (finallyCleanup rr bound none).pendingExn = respondWith r none := by
  have h : finallyCleanup rr bound none =
      { file := none, pendingExn := none, events := [] } := by
    simp [finallyCleanup]
  exact ⟨h, by rw [h]⟩

def envC8 : Env :=
  { image := { content_type := some "image/jpeg", chunks := [[5]], readError := true },
    tmpName := "/tmp/tmpc8", ocr := .ok "x", removeRaises := false }

/-- C8 counterexample: a request that passed validation and created the temp
file, but whose upload stream then failed, produces its response with NO
cleanup step ever occurring (and no flush or OCR call either), refuting the
claimed per-request sequence validate, persist, flush, recognize, clean up,
respond: the cleanup step is absent because `filepath` was never bound. -/
theorem C8_counterexample :
    Event.createTemp ∈ (ocr_endpoint envC8).trace ∧
    Event.respond ∈ (ocr_endpoint envC8).trace ∧
    Event.removeFile ∉ (ocr_endpoint envC8).trace ∧
    Event.flush ∉ (ocr_endpoint envC8).trace ∧
    Event.ocrCall ∉ (ocr_endpoint envC8).trace := by
  refine ⟨?_, ?_, ?_, ?_, ?_⟩ <;> decide

/-- C8 (amended): every execution trace has one of exactly three shapes,
which gives the strict ordering — validation first; then, if it passes, file
creation and one write per chunk; then, on every path that reaches the engine,
flush before the OCR call, the OCR call before removal, and removal before the
response.  In particular OCR is never invoked before the full write and flush,
and no step uses the path after the removal step.  The middle shape is the
streaming-failure path, where the response is produced with no flush, OCR or
cleanup step. -/
theorem C8_amended_trace_order (env : Env) :
    (ocr_endpoint env).trace = [Event.validate, Event.respond] ∨
    (ocr_endpoint env).trace =
      [Event.validate, Event.createTemp] ++
        List.replicate env.image.chunks.length Event.write ++ [Event.respond] ∨
    (ocr_endpoint env).trace =
      [Event.validate, Event.createTemp] ++
        List.replicate env.image.chunks.length Event.write ++
        [Event.flush, Event.ocrCall, Event.removeFile, Event.respond] := by
  obtain ⟨⟨ctOpt, chunks, re⟩, tmp, ocr, rr⟩ := env
  cases ctOpt with
  | none => exact Or.inl rfl
  | some ct =>
    by_cases himg : pyStartsWith ct "image/" = true
    · cases re with
      | true =>
        refine Or.inr (Or.inl ?_)
        simp [ocr_endpoint, himg, tryBody, writeEvents, finallyCleanup, List.map_const']
      | false =>
        refine Or.inr (Or.inr ?_)
        cases ocr <;> cases rr <;>
          simp [ocr_endpoint, himg, tryBody, perform_ocr_sync, writeEvents,
            finallyCleanup, List.map_const']
    · refine Or.inl ?_
      simp [ocr_endpoint, himg]
      simp [rejectOutcome]

/-- C10: an upload with a valid image content type and an empty body (no
chunks) is not rejected: the temp file is created, zero bytes are written to
it, the OCR engine is invoked on the (empty) artifact, and whatever the
outcome, the response is never the 400 rejection — the only validation is the
content-type prefix check. -/
theorem C10_empty_body_still_processed (env : Env) (ct : String)
    (hct : env.image.content_type = some ct)
    (himg : pyStartsWith ct "image/" = true)
    (hch : env.image.chunks = [])
    (hre : env.image.readError = false) :
    writtenBytes env = [] ∧
    Event.createTemp ∈ (ocr_endpoint env).trace ∧
    Event.ocrCall ∈ (ocr_endpoint env).trace ∧
    ∀ d, (ocr_endpoint env).resp ≠ Response.httpError 400 d := by
  refine ⟨by simp [writtenBytes, hch], ?_, ?_, ?_⟩ <;>
    cases hocr : env.ocr <;> cases hrm : env.removeRaises <;>
      simp [ocr_endpoint, hct, himg, tryBody, hre, hocr, perform_ocr_sync,
        finallyCleanup, hrm, respondWith, handleExcept, writeEvents, hch]

def envW10 : Env :=
  { image := { content_type := some "image/png", chunks := [], readError := false },
    tmpName := "/tmp/tmpw10", ocr := .ok "t", removeRaises := false }

/-- C10 witness: a concrete zero-byte valid upload is fully processed and not
rejected. -/
theorem C10_witness :
    writtenBytes envW10 = [] ∧
    Event.createTemp ∈ (ocr_endpoint envW10).trace ∧
    Event.ocrCall ∈ (ocr_endpoint envW10).trace ∧
    ∀ d, (ocr_endpoint envW10).resp ≠ Response.httpError 400 d :=
  C10_empty_body_still_processed envW10 "image/png" rfl (by decide) rfl rfl
